import Mathlib

/-!
Shallow embedding of the orchestration core of the repository
(src/backend/src/orchestrator/state_machine.py, message_bus.py, together
with the data model in src/backend/src/models/enums.py, schemas.py and
the message constructor in src/backend/src/agents/base.py).

Python conventions used throughout the embedding:
* dictionaries with enum keys are association lists with unique keys;
  `dictGet` is `dict.get(key, default)` and `listIn` is the `in` operator;
* `float` values are modelled as rationals;
* `Optional[T]` is `Option T`, and the truthiness test `if x:` on an
  optional enum value is a `match` on the option (enum members are truthy,
  `None` is falsy);
* `Dict[str, Any]` payloads are association lists `List (String × String)`;
  no code under verification ever reads a payload value, only key
  membership, so the value type is opaque;
* `raise` is modelled with `Except`, the error carrying the message string
  and the state of the context object at the moment of the raise.
-/

/-- The phase names referenced by the repository.  `enums.py` declares only
eight members of `InterviewState`; the names `SKILL_PROFILING`,
`CODE_EVALUATION` and `REPORT_GENERATION` are referenced by
`state_machine.py` but are absent from `enums.py`.  The embedding carries
all referenced names so that the transition-table literal of
`state_machine.py` can be written down verbatim;
`InterviewState.declaredInEnums` records exactly which names `enums.py`
defines (see the analysis of claim C6). -/
inductive InterviewState where
  | INIT
  | RESUME_ANALYSIS
  | SKILL_PROFILING
  | DSA_PHASE
  | SYSTEM_DESIGN_PHASE
  | BEHAVIORAL_PHASE
  | CODE_EVALUATION
  | CROSS_AGENT_DEBATE
  | FINAL_DECISION
  | REPORT_GENERATION
  | COMPLETED
deriving DecidableEq

/-- The members that `class InterviewState(Enum)` in
src/backend/src/models/enums.py lines 3-11 actually declares
(INIT, RESUME_ANALYSIS, DSA_PHASE, SYSTEM_DESIGN_PHASE, BEHAVIORAL_PHASE,
CROSS_AGENT_DEBATE, FINAL_DECISION, COMPLETED).  Looking up any other name
on the enum class raises `AttributeError` in Python. -/
def InterviewState.declaredInEnums : InterviewState → Bool
  | .SKILL_PROFILING => false
  | .CODE_EVALUATION => false
  | .REPORT_GENERATION => false
  | _ => true

/-- `str(state)` as Python renders an enum member inside an f-string. -/
def InterviewState.pyStr : InterviewState → String
  | .INIT => "InterviewState.INIT"
  | .RESUME_ANALYSIS => "InterviewState.RESUME_ANALYSIS"
  | .SKILL_PROFILING => "InterviewState.SKILL_PROFILING"
  | .DSA_PHASE => "InterviewState.DSA_PHASE"
  | .SYSTEM_DESIGN_PHASE => "InterviewState.SYSTEM_DESIGN_PHASE"
  | .BEHAVIORAL_PHASE => "InterviewState.BEHAVIORAL_PHASE"
  | .CODE_EVALUATION => "InterviewState.CODE_EVALUATION"
  | .CROSS_AGENT_DEBATE => "InterviewState.CROSS_AGENT_DEBATE"
  | .FINAL_DECISION => "InterviewState.FINAL_DECISION"
  | .REPORT_GENERATION => "InterviewState.REPORT_GENERATION"
  | .COMPLETED => "InterviewState.COMPLETED"

/-- `class AgentType(Enum)` from src/backend/src/models/enums.py. -/
inductive AgentType where
  | RECRUITER
  | DSA_INTERVIEWER
  | CODE_EVALUATOR
  | SYSTEM_DESIGN
  | BEHAVIORAL
  | HALLUCINATION_DETECTOR
  | CRITIC
  | FINAL_DECISION
deriving DecidableEq

/-- `str(agent)` as Python renders an `AgentType` member in an f-string. -/
def AgentType.pyStr : AgentType → String
  | .RECRUITER => "AgentType.RECRUITER"
  | .DSA_INTERVIEWER => "AgentType.DSA_INTERVIEWER"
  | .CODE_EVALUATOR => "AgentType.CODE_EVALUATOR"
  | .SYSTEM_DESIGN => "AgentType.SYSTEM_DESIGN"
  | .BEHAVIORAL => "AgentType.BEHAVIORAL"
  | .HALLUCINATION_DETECTOR => "AgentType.HALLUCINATION_DETECTOR"
  | .CRITIC => "AgentType.CRITIC"
  | .FINAL_DECISION => "AgentType.FINAL_DECISION"

/-- `class MessageType(Enum)` from src/backend/src/models/enums.py. -/
inductive MessageType where
  | QUESTION
  | ANSWER
  | EVALUATION
  | HINT
  | FEEDBACK
deriving DecidableEq

/-- `class DifficultyLevel(Enum)` from src/backend/src/models/enums.py. -/
inductive DifficultyLevel where
  | EASY
  | MEDIUM
  | HARD
deriving DecidableEq

/-- Python's `value in container` test for lists. -/
def listIn {α : Type} [DecidableEq α] (x : α) (l : List α) : Bool :=
  decide (x ∈ l)

/-- Python's `dict.get(key, default)` on a dictionary modelled as an
association list (unique keys, insertion order preserved). -/
def dictGet {κ β : Type} [DecidableEq κ] (d : List (κ × β)) (k : κ) (dflt : β) : β :=
  match d.find? (fun kv => decide (kv.1 = k)) with
  | some kv => kv.2
  | none => dflt

/-- `class AgentMessage(BaseModel)` from src/backend/src/models/schemas.py.
The pydantic model places no constraint on any field beyond its type; in
particular `confidence: float = 0.0` is an unconstrained float. -/
structure AgentMessage where
  id : String
  sender : AgentType
  receiver : Option AgentType
  message_type : MessageType
  content : String
  payload : List (String × String)
  confidence : ℚ
  timestamp : Nat
deriving DecidableEq

/-- `class InterviewContext(BaseModel)` from src/backend/src/models/schemas.py.
`Any`-valued mappings are modelled with opaque `String` values; no code
under verification reads them. -/
structure InterviewContext where
  session_id : String
  candidate_name : String
  current_state : InterviewState
  candidate_resume : Option String
  skill_profile : Option (List (String × String))
  difficulty_level : DifficultyLevel
  current_question : Option (List (String × String))
  candidate_answers : List String
  messages : List AgentMessage
  current_score : List (String × String)
  interview_plan : Option (List (String × String))
  questions_asked : Nat
  total_questions : Nat

/-- An `InterviewContext` built with only the two required fields, all other
fields at their pydantic defaults (`current_state = InterviewState.INIT`,
`difficulty_level = DifficultyLevel.MEDIUM`, `total_questions = 3`). -/
def InterviewContext.mkDefault (session_id candidate_name : String) : InterviewContext :=
  { session_id := session_id
    candidate_name := candidate_name
    current_state := InterviewState.INIT
    candidate_resume := none
    skill_profile := none
    difficulty_level := DifficultyLevel.MEDIUM
    current_question := none
    candidate_answers := []
    messages := []
    current_score := []
    interview_plan := none
    questions_asked := 0
    total_questions := 3 }

/-- `class StateMachine` from src/backend/src/orchestrator/state_machine.py.
`state_handlers` starts empty and is only written by `register_handler`
(`self.state_handlers[state] = handler`), so it is modelled as a partial
map.  Handlers are `async` callables mutating the context; under the
single-threaded event loop of the program each is a context transformer. -/
structure StateMachine where
  transitions : List (InterviewState × List InterviewState)
  state_agents : List (InterviewState × List AgentType)
  state_handlers : InterviewState → Option (InterviewContext → InterviewContext)

/-- The `self.transitions` dictionary literal written in
`StateMachine.__init__` (state_machine.py lines 7-19), transcribed entry
for entry. -/
def initTransitions : List (InterviewState × List InterviewState) :=
  [ (InterviewState.INIT, [InterviewState.RESUME_ANALYSIS]),
    (InterviewState.RESUME_ANALYSIS, [InterviewState.SKILL_PROFILING]),
    (InterviewState.SKILL_PROFILING, [InterviewState.DSA_PHASE]),
    (InterviewState.DSA_PHASE, [InterviewState.SYSTEM_DESIGN_PHASE, InterviewState.CODE_EVALUATION]),
    (InterviewState.SYSTEM_DESIGN_PHASE, [InterviewState.BEHAVIORAL_PHASE]),
    (InterviewState.BEHAVIORAL_PHASE, [InterviewState.CROSS_AGENT_DEBATE]),
    (InterviewState.CODE_EVALUATION, [InterviewState.SYSTEM_DESIGN_PHASE]),
    (InterviewState.CROSS_AGENT_DEBATE, [InterviewState.FINAL_DECISION]),
    (InterviewState.FINAL_DECISION, [InterviewState.REPORT_GENERATION]),
    (InterviewState.REPORT_GENERATION, [InterviewState.COMPLETED]),
    (InterviewState.COMPLETED, []) ]

/-- The `self.state_agents` dictionary literal of `StateMachine.__init__`
(state_machine.py lines 21-31). -/
def initStateAgents : List (InterviewState × List AgentType) :=
  [ (InterviewState.RESUME_ANALYSIS, [AgentType.RECRUITER]),
    (InterviewState.SKILL_PROFILING, [AgentType.RECRUITER]),
    (InterviewState.DSA_PHASE, [AgentType.DSA_INTERVIEWER, AgentType.HALLUCINATION_DETECTOR]),
    (InterviewState.SYSTEM_DESIGN_PHASE, [AgentType.SYSTEM_DESIGN, AgentType.HALLUCINATION_DETECTOR]),
    (InterviewState.BEHAVIORAL_PHASE, [AgentType.BEHAVIORAL]),
    (InterviewState.CODE_EVALUATION, [AgentType.CODE_EVALUATOR, AgentType.HALLUCINATION_DETECTOR]),
    (InterviewState.CROSS_AGENT_DEBATE, [AgentType.CRITIC]),
    (InterviewState.FINAL_DECISION, [AgentType.FINAL_DECISION]),
    (InterviewState.REPORT_GENERATION, [AgentType.FINAL_DECISION]) ]

/-- `StateMachine()`: the object `__init__` would produce (note that in
Python the construction actually raises `AttributeError` on line 9 because
`InterviewState.SKILL_PROFILING` is not declared by enums.py; claim C6
records this). -/
def StateMachine.init : StateMachine :=
  { transitions := initTransitions
    state_agents := initStateAgents
    state_handlers := fun _ => none }

/-- `StateMachine.can_transition` (state_machine.py lines 33-34):
`return to_state in self.transitions.get(from_state, [])`. -/
def StateMachine.can_transition (sm : StateMachine)
    (from_state to_state : InterviewState) : Bool :=
  listIn to_state (dictGet sm.transitions from_state [])

/-- `StateMachine.get_next_states` (state_machine.py lines 36-37):
`return self.transitions.get(current_state, [])`. -/
def StateMachine.get_next_states (sm : StateMachine)
    (current_state : InterviewState) : List InterviewState :=
  dictGet sm.transitions current_state []

/-- `StateMachine.get_active_agents` (state_machine.py lines 39-40). -/
def StateMachine.get_active_agents (sm : StateMachine)
    (state : InterviewState) : List AgentType :=
  dictGet sm.state_agents state []

/-- `StateMachine.register_handler` (state_machine.py lines 42-43):
`self.state_handlers[state] = handler` (dictionary assignment, last
registration for a state wins). -/
def StateMachine.register_handler (sm : StateMachine) (state : InterviewState)
    (handler : InterviewContext → InterviewContext) : StateMachine :=
  { sm with state_handlers :=
      fun s => if s = state then some handler else sm.state_handlers s }

/-- The f-string of the `ValueError` raised by `execute_transition`:
`f"Invalid transition: {context.current_state} -> {next_state}"`. -/
def invalidTransitionMsg (fromState toState : InterviewState) : String :=
  "Invalid transition: " ++ fromState.pyStr ++ " -> " ++ toState.pyStr

/-- `StateMachine.execute_transition` (state_machine.py lines 45-63).  The
`raise` path is `Except.error` carrying the message and the context object
as the caller observes it at the moment of the raise; the success path
first assigns `context.current_state = next_state` and then runs the
handler registered for `next_state`, if any. -/
def StateMachine.execute_transition (sm : StateMachine)
    (context : InterviewContext) (next_state : InterviewState) :
    Except (String × InterviewContext) InterviewContext :=
  if sm.can_transition context.current_state next_state = false then
    Except.error (invalidTransitionMsg context.current_state next_state, context)
  else
    match sm.state_handlers next_state with
    | some handler => Except.ok (handler { context with current_state := next_state })
    | none => Except.ok { context with current_state := next_state }

/-- `StateMachine.determine_next_state` (state_machine.py lines 65-78).
`context.messages[-1] if context.messages else None` is `List.getLast?`,
and `"code" in last_message.payload` is key membership in the payload
dictionary. -/
def StateMachine.determine_next_state (sm : StateMachine)
    (context : InterviewContext) : InterviewState :=
  match sm.get_next_states context.current_state with
  | [] => context.current_state
  | next0 :: _ =>
    if context.current_state = InterviewState.DSA_PHASE then
      match context.messages.getLast? with
      | some last_message =>
          if listIn "code" (last_message.payload.map Prod.fst) then
            InterviewState.CODE_EVALUATION
          else
            InterviewState.SYSTEM_DESIGN_PHASE
      | none => InterviewState.SYSTEM_DESIGN_PHASE
    else next0

/-- `class MessageBus` from src/backend/src/orchestrator/message_bus.py.
Callbacks are opaque to the bus (it only ever schedules them with
`asyncio.create_task(callback(message))`), so the bus is parametric in the
callback type `α`.  The `asyncio.Queue` is the list of not-yet-consumed
messages in FIFO order. -/
structure MessageBus (α : Type) where
  subscribers : List (AgentType × List α)
  message_queue : List AgentMessage
  message_history : List AgentMessage
  broadcast_callbacks : List α

/-- `MessageBus()`: all registries and buffers empty. -/
def MessageBus.init {α : Type} : MessageBus α :=
  { subscribers := []
    message_queue := []
    message_history := []
    broadcast_callbacks := [] }

/-- `MessageBus.subscribe` (message_bus.py lines 14-17): create the key's
empty list when absent, then `self.subscribers[agent_type].append(callback)`. -/
def MessageBus.subscribe {α : Type} (bus : MessageBus α)
    (agent_type : AgentType) (callback : α) : MessageBus α :=
  let subs :=
    if listIn agent_type (bus.subscribers.map Prod.fst) then bus.subscribers
    else bus.subscribers ++ [(agent_type, [])]
  { bus with subscribers :=
      subs.map (fun kv => if kv.1 = agent_type then (kv.1, kv.2 ++ [callback]) else kv) }

/-- `MessageBus.subscribe_broadcast` (message_bus.py lines 19-20). -/
def MessageBus.subscribe_broadcast {α : Type} (bus : MessageBus α)
    (callback : α) : MessageBus α :=
  { bus with broadcast_callbacks := bus.broadcast_callbacks ++ [callback] }

/-- `MessageBus.publish` (message_bus.py lines 22-36): append the message
to the history, enqueue it on the pull queue, then spawn one task per
receiving callback with `asyncio.create_task(callback(message))` — first
every broadcast callback, then (receiver set and present in the
subscriber dictionary) that receiver's subscribers, else (receiver unset)
every registered subscriber list in insertion order.  The second component
is the list of callbacks a task was spawned for, in spawn order. -/
def MessageBus.publish {α : Type} (bus : MessageBus α) (message : AgentMessage) :
    MessageBus α × List α :=
  let bus1 := { bus with
    message_history := bus.message_history ++ [message]
    message_queue := bus.message_queue ++ [message] }
  let tasks := bus1.broadcast_callbacks ++
    (match message.receiver with
     | some r =>
        if listIn r (bus1.subscribers.map Prod.fst) then dictGet bus1.subscribers r []
        else []
     | none => (bus1.subscribers.map Prod.snd).flatten)
  (bus1, tasks)

/-- `publish` followed by the event loop running every spawned task to
completion.  `asyncio.create_task` is fire-and-forget: a callback body that
raises stores the exception in its own task object, so `publish` itself
returns normally whatever the callbacks do; `run c message` is the outcome
of the task spawned for callback `c`. -/
def MessageBus.publishWith {α : Type} (bus : MessageBus α) (message : AgentMessage)
    (run : α → AgentMessage → Except String Unit) :
    Except String (MessageBus α × List (α × Except String Unit)) :=
  let p := bus.publish message
  Except.ok (p.1, p.2.map (fun c => (c, run c message)))

/-- Outcome of a `get_message` call as observed by the caller. -/
inductive GetMessageOutcome where
  | got (m : AgentMessage)
  | timeoutErrorAfter (t : ℚ)
  | blocks
deriving DecidableEq

/-- Python truthiness of the optional float argument `timeout` (`None` and
`0` are falsy, every other float truthy). -/
def pyTruthyFloat : Option ℚ → Bool
  | none => false
  | some t => decide (t ≠ 0)

/-- `MessageBus.get_message` (message_bus.py lines 38-41): `if timeout:`
wraps `self.message_queue.get()` in `asyncio.wait_for(..., timeout)`,
which raises `TimeoutError` after `timeout` seconds on an empty queue;
otherwise the bare `await self.message_queue.get()` suspends until a
message arrives (`GetMessageOutcome.blocks`). -/
def MessageBus.get_message {α : Type} (bus : MessageBus α) (timeout : Option ℚ) :
    GetMessageOutcome × MessageBus α :=
  if pyTruthyFloat timeout then
    match bus.message_queue with
    | m :: rest => (GetMessageOutcome.got m, { bus with message_queue := rest })
    | [] => (GetMessageOutcome.timeoutErrorAfter (timeout.getD 0), bus)
  else
    match bus.message_queue with
    | m :: rest => (GetMessageOutcome.got m, { bus with message_queue := rest })
    | [] => (GetMessageOutcome.blocks, bus)

/-- Python's `filtered[-limit:]` for a non-negative `limit ≥ 1`: the last
`limit` elements (the whole list when `limit` exceeds its length). -/
def takeLast {β : Type} (l : List β) (k : Nat) : List β :=
  l.drop (l.length - k)

/-- `MessageBus.get_history` (message_bus.py lines 43-59).  Each optional
filter is applied when truthy (`if sender:` etc.); the result is
`filtered[-limit:] if limit else filtered`.  The Python default for
`limit` is `50`; call sites of the embedding pass `50` explicitly for an
omitted argument, and `0` models both `limit=0` and `limit=None`
(both falsy). -/
def MessageBus.get_history {α : Type} (bus : MessageBus α)
    (sender : Option AgentType) (receiver : Option AgentType)
    (message_type : Option MessageType) (limit : Nat) : List AgentMessage :=
  let f0 := bus.message_history
  let f1 := match sender with
    | some s => f0.filter (fun m => decide (m.sender = s))
    | none => f0
  let f2 := match receiver with
    | some r => f1.filter (fun m => decide (m.receiver = some r))
    | none => f1
  let f3 := match message_type with
    | some t => f2.filter (fun m => decide (m.message_type = t))
    | none => f2
  if limit ≠ 0 then takeLast f3 limit else f3

/-- `MessageBus.clear_history` (message_bus.py lines 61-62). -/
def MessageBus.clear_history {α : Type} (bus : MessageBus α) : MessageBus α :=
  { bus with message_history := [] }

/-- `BaseAgent.create_message` (src/backend/src/agents/base.py lines
160-176): builds an `AgentMessage` with
`id = f"{self.agent_type}_{datetime.utcnow().timestamp()}"`, the agent as
sender, and every other field — including `confidence` — passed through
unchanged.  `now` is the wall-clock reading. -/
def create_message (agent_type : AgentType) (receiver : Option AgentType)
    (message_type : MessageType) (content : String)
    (payload : List (String × String)) (confidence : ℚ) (now : Nat) : AgentMessage :=
  { id := agent_type.pyStr ++ "_" ++ toString now
    sender := agent_type
    receiver := receiver
    message_type := message_type
    content := content
    payload := payload
    confidence := confidence
    timestamp := now }

/-- Publishing a whole list of messages in order, keeping the bus state
(the spawned tasks of each step are consumed by the event loop). -/
def publishAll {α : Type} (bus : MessageBus α) (msgs : List AgentMessage) : MessageBus α :=
  msgs.foldl (fun b m => (b.publish m).1) bus

/-- Claim C1: `execute_transition` raises the invalid-transition `ValueError`
naming both the current phase and the target exactly when `can_transition`
is false, and on that error the context is unchanged (the check precedes
any mutation, so the error carries the untouched context); when the
transition is allowed it sets `current_state` to the target and then runs
the phase-entry handler registered for the target, if any, before
returning the context. -/
theorem C1_execute_transition_spec (sm : StateMachine)
    (context : InterviewContext) (next_state : InterviewState) :
    ((∃ e, sm.execute_transition context next_state = Except.error e) ↔
      sm.can_transition context.current_state next_state = false) ∧
    (sm.can_transition context.current_state next_state = false →
      sm.execute_transition context next_state =
        Except.error (invalidTransitionMsg context.current_state next_state, context)) ∧
    (∃ s1 s2 : String, invalidTransitionMsg context.current_state next_state =
        s1 ++ context.current_state.pyStr ++ s2 ++ next_state.pyStr) ∧
    (sm.can_transition context.current_state next_state = true →
      (∀ h, sm.state_handlers next_state = some h →
          sm.execute_transition context next_state =
            Except.ok (h { context with current_state := next_state })) ∧
      (sm.state_handlers next_state = none →
          sm.execute_transition context next_state =
            Except.ok { context with current_state := next_state })) := by
  refine ⟨⟨?_, ?_⟩, ?_, ⟨"Invalid transition: ", " -> ", rfl⟩, ?_⟩
  · rintro ⟨e, he⟩
    by_contra hb
    rw [Bool.not_eq_false] at hb
    rw [StateMachine.execute_transition] at he
    simp only [hb] at he
    cases hh : sm.state_handlers next_state <;> simp [hh] at he
  · intro hb
    refine ⟨(invalidTransitionMsg context.current_state next_state, context), ?_⟩
    simp [StateMachine.execute_transition, hb]
  · intro hb
    simp [StateMachine.execute_transition, hb]
  · intro hb
    constructor
    · intro h hh
      simp [StateMachine.execute_transition, hb, hh]
    · intro hh
      simp [StateMachine.execute_transition, hb, hh]

/-- A fresh context at phase `INIT` (pydantic defaults). -/
def ctxInitW : InterviewContext := InterviewContext.mkDefault "s1" "cand"

/-- Witness for C1: from `INIT`, requesting `SKILL_PROFILING` is rejected
(the spec scenario "starting at INIT, executeTransition(ctx,
SKILL_PROFILING) fails") and the error names both phases and carries the
unchanged context. -/
theorem C1_execute_transition_witness :
    StateMachine.init.can_transition ctxInitW.current_state InterviewState.SKILL_PROFILING = false ∧
    StateMachine.init.execute_transition ctxInitW InterviewState.SKILL_PROFILING =
      Except.error
        (invalidTransitionMsg InterviewState.INIT InterviewState.SKILL_PROFILING, ctxInitW) :=
  ⟨rfl,
    (C1_execute_transition_spec StateMachine.init ctxInitW InterviewState.SKILL_PROFILING).2.1 rfl⟩

/-- Claim C9: a context whose current phase has no declared successors
(`COMPLETED`, whose table entry is `[]`, or any phase with no table entry,
where `dict.get` falls back to `[]`) makes `determine_next_state` return
the current phase itself, with no error and no distinguished value. -/
theorem C9_no_successor_returns_current (sm : StateMachine) (ctx : InterviewContext)
    (h : sm.get_next_states ctx.current_state = []) :
    sm.determine_next_state ctx = ctx.current_state := by
  rw [StateMachine.determine_next_state, h]

/-- A context sitting in the terminal `COMPLETED` phase. -/
def ctxCompletedW : InterviewContext :=
  { InterviewContext.mkDefault "s2" "cand" with current_state := InterviewState.COMPLETED }

/-- Witness for C9: at `COMPLETED` (empty successor list in the table)
`determine_next_state` returns `COMPLETED` itself. -/
theorem C9_no_successor_witness :
    StateMachine.init.determine_next_state ctxCompletedW = InterviewState.COMPLETED :=
  C9_no_successor_returns_current StateMachine.init ctxCompletedW rfl

/-- The successor lists of the declared transition table, evaluated. -/
lemma init_next_states_DSA :
    StateMachine.init.get_next_states InterviewState.DSA_PHASE =
      [InterviewState.SYSTEM_DESIGN_PHASE, InterviewState.CODE_EVALUATION] := rfl

/-- Claim C5: `determine_next_state` resolves branching deterministically:
in `DSA_PHASE` with a non-empty message log it returns `CODE_EVALUATION`
exactly when the most recent message's payload contains the `"code"` key
and `SYSTEM_DESIGN_PHASE` otherwise; in every other phase with at least
one declared successor it returns the first declared successor. -/
theorem C5_determine_next_state_spec (ctx : InterviewContext) :
    (ctx.current_state = InterviewState.DSA_PHASE →
      ∀ m, ctx.messages.getLast? = some m →
        StateMachine.init.determine_next_state ctx =
          (if listIn "code" (m.payload.map Prod.fst) then InterviewState.CODE_EVALUATION
           else InterviewState.SYSTEM_DESIGN_PHASE)) ∧
    (∀ first rest, StateMachine.init.get_next_states ctx.current_state = first :: rest →
      ctx.current_state ≠ InterviewState.DSA_PHASE →
      StateMachine.init.determine_next_state ctx = first) := by
  constructor
  · intro h m hm
    rw [StateMachine.determine_next_state, h, init_next_states_DSA]
    simp [hm]
  · intro first rest hnext hne
    rw [StateMachine.determine_next_state, hnext]
    simp [hne]

/-- A context in `DSA_PHASE` whose last message carries a `"code"` payload
key. -/
def ctxDsaCodeW : InterviewContext :=
  { InterviewContext.mkDefault "s3" "cand" with
      current_state := InterviewState.DSA_PHASE
      messages := [create_message AgentType.DSA_INTERVIEWER none MessageType.ANSWER
        "answer" [("code", "def f(): pass")] (9/10 : ℚ) 7] }

/-- Witness for C5: in `DSA_PHASE` with a last message whose payload has the
`"code"` key, `determine_next_state` picks `CODE_EVALUATION`. -/
theorem C5_determine_next_state_witness :
    StateMachine.init.determine_next_state ctxDsaCodeW = InterviewState.CODE_EVALUATION := by
  have h := (C5_determine_next_state_spec ctxDsaCodeW).1 rfl
    (create_message AgentType.DSA_INTERVIEWER none MessageType.ANSWER
      "answer" [("code", "def f(): pass")] (9/10 : ℚ) 7) rfl
  simpa using h

/-- Claim C6 (recorded as a code bug): the transition-table literal of
`StateMachine.__init__` is the richer graph — `INIT` reaches only
`RESUME_ANALYSIS`, `DSA_PHASE` reaches exactly `SYSTEM_DESIGN_PHASE` and
`CODE_EVALUATION`, and the table's phase set includes `SKILL_PROFILING`,
`CODE_EVALUATION` and `REPORT_GENERATION` — but none of those three names
is declared by `InterviewState` in enums.py (`declaredInEnums` is false
for them), so in Python the attribute lookups in the table literal raise
`AttributeError` before `can_transition` can ever run.  On the table as
written, `can_transition` is exactly membership in the entry, with `[]`
(hence `false`, not an error) for a phase with no entry. -/
theorem C6_table_vs_declared_enum :
    InterviewState.declaredInEnums InterviewState.SKILL_PROFILING = false ∧
    InterviewState.declaredInEnums InterviewState.CODE_EVALUATION = false ∧
    InterviewState.declaredInEnums InterviewState.REPORT_GENERATION = false ∧
    listIn InterviewState.SKILL_PROFILING (initTransitions.map Prod.fst) = true ∧
    listIn InterviewState.CODE_EVALUATION ((initTransitions.map Prod.snd).flatten) = true ∧
    listIn InterviewState.REPORT_GENERATION (initTransitions.map Prod.fst) = true ∧
    dictGet initTransitions InterviewState.INIT [] = [InterviewState.RESUME_ANALYSIS] ∧
    dictGet initTransitions InterviewState.DSA_PHASE [] =
      [InterviewState.SYSTEM_DESIGN_PHASE, InterviewState.CODE_EVALUATION] ∧
    (∀ a b : InterviewState,
      StateMachine.init.can_transition a b = listIn b (dictGet initTransitions a [])) := by
  refine ⟨rfl, rfl, rfl, by decide, by decide, by decide, by decide, by decide, ?_⟩
  intro a b
  rfl

/-- A value found under a key of an association-list dictionary lies in the
concatenation of all its value lists. -/
lemma dictGet_subset_flatten {κ β : Type} [DecidableEq κ]
    (d : List (κ × List β)) (k : κ) (c : β) (hc : c ∈ dictGet d k []) :
    c ∈ (d.map Prod.snd).flatten := by
  unfold dictGet at hc
  cases hfind : d.find? (fun kv => decide (kv.1 = k)) with
  | none => rw [hfind] at hc; simp at hc
  | some kv =>
    rw [hfind] at hc
    have hmem : kv ∈ d := List.mem_of_find?_eq_some hfind
    exact List.mem_flatten.mpr ⟨kv.2, List.mem_map_of_mem Prod.snd hmem, hc⟩

/-- When a key is not among the dictionary's keys, `dict.get` returns the
default. -/
lemma dictGet_eq_default_of_no_key {κ β : Type} [DecidableEq κ]
    (d : List (κ × β)) (k : κ) (dflt : β)
    (h : listIn k (d.map Prod.fst) = false) : dictGet d k dflt = dflt := by
  unfold dictGet
  cases hfind : d.find? (fun kv => decide (kv.1 = k)) with
  | none => rfl
  | some kv =>
    exfalso
    have h0 := List.find?_some hfind
    simp only [decide_eq_true_eq] at h0
    have h1 : kv.1 = k := h0
    have hmem : kv ∈ d := List.mem_of_find?_eq_some hfind
    have h2 : k ∈ d.map Prod.fst := h1 ▸ List.mem_map_of_mem Prod.fst hmem
    simp [listIn, h2] at h

/-- Claim C2: a published message with `receiver = None` is handed to every
broadcast callback and to every subscriber registered under any role at
publish time; a message with `receiver = R` is handed to every broadcast
callback and exactly the subscribers registered under `R` — a callback
registered only under a different role receives nothing. -/
theorem C2_publish_delivery {α : Type} (bus : MessageBus α) (message : AgentMessage) :
    (∀ c ∈ bus.broadcast_callbacks, c ∈ (bus.publish message).2) ∧
    (message.receiver = none →
      ∀ r : AgentType, ∀ c ∈ dictGet bus.subscribers r [], c ∈ (bus.publish message).2) ∧
    (∀ R : AgentType, message.receiver = some R →
      (∀ c ∈ dictGet bus.subscribers R [], c ∈ (bus.publish message).2) ∧
      (∀ c ∈ (bus.publish message).2,
        c ∈ bus.broadcast_callbacks ∨ c ∈ dictGet bus.subscribers R [])) := by
  refine ⟨?_, ?_, ?_⟩
  · intro c hc
    simp only [MessageBus.publish]
    exact List.mem_append_left _ hc
  · intro hrecv r c hc
    simp only [MessageBus.publish, hrecv]
    exact List.mem_append_right _ (dictGet_subset_flatten bus.subscribers r c hc)
  · intro R hrecv
    constructor
    · intro c hc
      simp only [MessageBus.publish, hrecv]
      refine List.mem_append_right _ ?_
      cases hk : listIn R (bus.subscribers.map Prod.fst) with
      | true => simpa using hc
      | false =>
        exfalso
        rw [dictGet_eq_default_of_no_key bus.subscribers R [] hk] at hc
        simp at hc
    · intro c hc
      simp only [MessageBus.publish, hrecv] at hc
      rcases List.mem_append.mp hc with h | h
      · exact Or.inl h
      · right
        cases hk : listIn R (bus.subscribers.map Prod.fst) with
        | true => rw [hk] at h; simpa using h
        | false => rw [hk] at h; simp at h

/-- A bus with one broadcast callback `0`, callback `1` subscribed for
`RECRUITER` and callback `2` subscribed for `CRITIC`. -/
def busTwoRolesW : MessageBus Nat :=
  ((MessageBus.init.subscribe_broadcast 0).subscribe AgentType.RECRUITER 1).subscribe
    AgentType.CRITIC 2

/-- A message addressed to `RECRUITER`. -/
def msgToRecruiterW : AgentMessage :=
  create_message AgentType.DSA_INTERVIEWER (some AgentType.RECRUITER)
    MessageType.QUESTION "q" [] 0 1

/-- Witness for C2: on the concrete bus, publishing a message addressed to
`RECRUITER` spawns a task for the broadcast callback `0` and for
`RECRUITER`'s subscriber `1`. -/
theorem C2_publish_delivery_witness :
    (0 : Nat) ∈ (busTwoRolesW.publish msgToRecruiterW).2 ∧
    (1 : Nat) ∈ (busTwoRolesW.publish msgToRecruiterW).2 :=
  ⟨(C2_publish_delivery busTwoRolesW msgToRecruiterW).1 0 (by decide),
   ((C2_publish_delivery busTwoRolesW msgToRecruiterW).2.2 AgentType.RECRUITER rfl).1 1
     (by decide)⟩

/-- Claim C4: `publish` spawns each callback as its own task
(`asyncio.create_task`), so publish returns normally whatever the
callbacks do, the set of callbacks the message is delivered to does not
depend on any callback's outcome (a raising callback cannot prevent
delivery to the others), and each spawned task's outcome is exactly its
own callback applied to the message. -/
theorem C4_publish_isolation {α : Type} (bus : MessageBus α) (message : AgentMessage)
    (run run2 : α → AgentMessage → Except String Unit) :
    ∃ bus2 results results2,
      bus.publishWith message run = Except.ok (bus2, results) ∧
      bus.publishWith message run2 = Except.ok (bus2, results2) ∧
      results.map Prod.fst = results2.map Prod.fst ∧
      (∀ c ∈ results.map Prod.fst, (c, run c message) ∈ results) := by
  refine ⟨(bus.publish message).1,
    (bus.publish message).2.map (fun c => (c, run c message)),
    (bus.publish message).2.map (fun c => (c, run2 c message)), rfl, rfl, ?_, ?_⟩
  · simp [List.map_map, Function.comp]
  · intro c hc
    have hc2 : c ∈ (bus.publish message).2 := by
      simpa [List.map_map, Function.comp] using hc
    exact List.mem_map_of_mem _ hc2

/-- A bus with two broadcast callbacks `0` and `1`. -/
def busTwoBroadcastW : MessageBus Nat :=
  (MessageBus.init.subscribe_broadcast 0).subscribe_broadcast 1

/-- A broadcast message. -/
def msgBroadW : AgentMessage :=
  create_message AgentType.RECRUITER none MessageType.FEEDBACK "hello" [] (1/2 : ℚ) 2

/-- A callback family in which callback `0` raises `ValueError`. -/
def runBoomW : Nat → AgentMessage → Except String Unit :=
  fun c _ => if c = 0 then Except.error "ValueError" else Except.ok ()

/-- A callback family in which every callback succeeds. -/
def runOkW : Nat → AgentMessage → Except String Unit :=
  fun _ _ => Except.ok ()

/-- Witness for C4: callback `0` really raises, yet publishing on the
concrete two-callback bus succeeds and delivers to the same callbacks as
with the never-raising family. -/
theorem C4_publish_isolation_witness :
    runBoomW 0 msgBroadW = Except.error "ValueError" ∧
    (∃ bus2 results results2,
      busTwoBroadcastW.publishWith msgBroadW runBoomW = Except.ok (bus2, results) ∧
      busTwoBroadcastW.publishWith msgBroadW runOkW = Except.ok (bus2, results2) ∧
      results.map Prod.fst = results2.map Prod.fst ∧
      (∀ c ∈ results.map Prod.fst, (c, runBoomW c msgBroadW) ∈ results)) :=
  ⟨rfl, C4_publish_isolation busTwoBroadcastW msgBroadW runBoomW runOkW⟩

/-- Claim C10: on an empty queue, `get_message` with `timeout = 0` (falsy,
like the `None` default) takes the bare `await queue.get()` path and
suspends until a message arrives rather than failing with `Timeout`; the
`asyncio.wait_for` timeout path is armed exactly for a truthy (nonzero)
timeout value. -/
theorem C10_get_message_timeout_spec {α : Type} (bus : MessageBus α)
    (h : bus.message_queue = []) :
    (bus.get_message (some 0)).1 = GetMessageOutcome.blocks ∧
    (bus.get_message none).1 = GetMessageOutcome.blocks ∧
    (∀ t : ℚ,
      ((bus.get_message (some t)).1 = GetMessageOutcome.timeoutErrorAfter t ↔ t ≠ 0)) := by
  refine ⟨?_, ?_, ?_⟩
  · simp [MessageBus.get_message, pyTruthyFloat, h]
  · simp [MessageBus.get_message, pyTruthyFloat, h]
  · intro t
    by_cases ht : t = 0
    · subst ht
      simp [MessageBus.get_message, pyTruthyFloat, h]
    · simp [MessageBus.get_message, pyTruthyFloat, h, ht]

/-- Witness for C10: on the concrete empty bus, `timeout = 0` blocks and a
truthy `timeout = 5/2` arms the timeout path. -/
theorem C10_get_message_timeout_witness :
    ((MessageBus.init : MessageBus Nat).get_message (some 0)).1 = GetMessageOutcome.blocks ∧
    (((MessageBus.init : MessageBus Nat).get_message (some (5/2))).1 =
        GetMessageOutcome.timeoutErrorAfter (5/2) ↔ (5/2 : ℚ) ≠ 0) :=
  ⟨(C10_get_message_timeout_spec (MessageBus.init : MessageBus Nat) rfl).1,
   (C10_get_message_timeout_spec (MessageBus.init : MessageBus Nat) rfl).2.2 (5/2)⟩

/-- `publishAll` appends the published messages to the history in publish
order. -/
lemma publishAll_history {α : Type} (bus : MessageBus α) (msgs : List AgentMessage) :
    (publishAll bus msgs).message_history = bus.message_history ++ msgs := by
  induction msgs generalizing bus with
  | nil => simp [publishAll]
  | cons m ms ih =>
    show (publishAll ((bus.publish m).1) ms).message_history = _
    rw [ih]
    simp [MessageBus.publish]

/-- `takeLast` keeps `min k N` elements. -/
lemma takeLast_length {β : Type} (l : List β) (k : Nat) :
    (takeLast l k).length = min k l.length := by
  simp only [takeLast, List.length_drop]
  omega

/-- `takeLast l k` is a suffix of `l` (the last elements in original
relative order). -/
lemma takeLast_suffix {β : Type} (l : List β) (k : Nat) :
    List.IsSuffix (takeLast l k) l :=
  List.drop_suffix _ _

/-- `get_history` with no filters is truncation of the raw history. -/
lemma get_history_no_filters {α : Type} (bus : MessageBus α) (k : Nat) :
    bus.get_history none none none k =
      if k ≠ 0 then takeLast bus.message_history k else bus.message_history := rfl

/-- The 51 messages used to exhibit the default truncation of
`get_history`. -/
def msgsFiftyOneW : List AgentMessage :=
  (List.range 51).map (fun i =>
    create_message AgentType.RECRUITER none MessageType.QUESTION "q" [] 0 i)

/-- The bus after publishing those 51 messages. -/
def busFiftyOneW : MessageBus Nat := publishAll MessageBus.init msgsFiftyOneW

/-- Claim C3 counterexample: after publishing 51 messages from an empty
bus, `get_history` called with no filters and no `limit` argument (Python
default `limit = 50`) returns 50, not 51, messages — publishing N
messages does not increase its length by N once the history exceeds 50,
so the claim as stated is false on the code. -/
theorem C3_default_limit_counterexample :
    busFiftyOneW.message_history.length = 51 ∧
    (busFiftyOneW.get_history none none none 50).length = 50 ∧
    ¬((busFiftyOneW.get_history none none none 50).length = 51) := by
  have h1 : busFiftyOneW.message_history.length = 51 := by
    show (publishAll MessageBus.init msgsFiftyOneW).message_history.length = 51
    rw [publishAll_history]
    simp [MessageBus.init, msgsFiftyOneW]
  have h2 : (busFiftyOneW.get_history none none none 50).length = 50 := by
    rw [get_history_no_filters]
    simp [takeLast_length, h1]
  exact ⟨h1, h2, by omega⟩

/-- Claim C3 amended: `get_history` truncates to the last `limit` entries,
and `limit` defaults to 50 — with no filters and a truthy limit `k ≥ 1`
(including the default 50) the result is the last `min(k, N)` published
messages in original relative order (a suffix of the publish order), and
only the falsy `limit = 0` (or `None`) disables truncation and returns
the entire history. -/
theorem C3_get_history_amended (msgs : List AgentMessage) (k : Nat) (hk : k ≠ 0) :
    ((publishAll (MessageBus.init : MessageBus Nat) msgs).get_history
        none none none k).length = min k msgs.length ∧
    List.IsSuffix
      ((publishAll (MessageBus.init : MessageBus Nat) msgs).get_history none none none k)
      msgs ∧
    (publishAll (MessageBus.init : MessageBus Nat) msgs).get_history none none none 0
      = msgs := by
  have hhist : (publishAll (MessageBus.init : MessageBus Nat) msgs).message_history = msgs := by
    rw [publishAll_history]
    rfl
  refine ⟨?_, ?_, ?_⟩
  · rw [get_history_no_filters, if_pos hk, hhist, takeLast_length]
  · rw [get_history_no_filters, if_pos hk, hhist]
    exact takeLast_suffix _ _
  · rw [get_history_no_filters]
    simp [hhist]

/-- Three concrete messages with confidences 9/10, 1/2, 1/5 (the spec's
0.9 / 0.5 / 0.2 scenario). -/
def msgsThreeW : List AgentMessage :=
  [create_message AgentType.RECRUITER none MessageType.QUESTION "a" [] (9/10 : ℚ) 1,
   create_message AgentType.DSA_INTERVIEWER none MessageType.ANSWER "b" [] (1/2 : ℚ) 2,
   create_message AgentType.CRITIC none MessageType.FEEDBACK "c" [] (1/5 : ℚ) 3]

/-- Witness for the amended C3: publishing the three concrete messages,
`get_history(limit=2)` has length `min 2 3 = 2`, is a suffix of the
publish order, and `limit = 0` returns all three. -/
theorem C3_get_history_amended_witness :
    ((publishAll (MessageBus.init : MessageBus Nat) msgsThreeW).get_history
        none none none 2).length = min 2 msgsThreeW.length ∧
    List.IsSuffix
      ((publishAll (MessageBus.init : MessageBus Nat) msgsThreeW).get_history none none none 2)
      msgsThreeW ∧
    (publishAll (MessageBus.init : MessageBus Nat) msgsThreeW).get_history none none none 0
      = msgsThreeW :=
  C3_get_history_amended msgsThreeW 2 (by decide)

/-- A message carrying confidence 3/2, as `hallucination_detector.py`
builds (`confidence = accuracy_score / 10`) whenever the parsed
`accuracy_score` is 15. -/
def msgOverConfidentW : AgentMessage :=
  create_message AgentType.HALLUCINATION_DETECTOR none MessageType.EVALUATION
    "validation" [] (15/10 : ℚ) 9

/-- Claim C7 counterexample: a message whose confidence is 3/2 — outside
[0, 1] — is constructed by `create_message` and accepted and recorded by
`publish` unchanged: neither the `AgentMessage` model nor the constructor
nor the bus enforces the claimed [0, 1] constraint. -/
theorem C7_confidence_counterexample :
    msgOverConfidentW.confidence = 3/2 ∧
    ¬(0 ≤ msgOverConfidentW.confidence ∧ msgOverConfidentW.confidence ≤ 1) ∧
    ((MessageBus.init : MessageBus Nat).publish msgOverConfidentW).1.message_history =
      [msgOverConfidentW] := by
  refine ⟨by norm_num [msgOverConfidentW, create_message], ?_, rfl⟩
  intro h
  have := h.2
  norm_num [msgOverConfidentW, create_message] at this

/-- Claim C7 amended: `confidence` is an unconstrained float defaulting to
0.0 — `create_message` forwards whatever confidence its caller supplies,
and `publish` records the message unchanged, so no [0, 1] bound is
enforced anywhere between construction and the history. -/
theorem C7_confidence_passthrough (agent : AgentType) (receiver : Option AgentType)
    (mt : MessageType) (content : String) (payload : List (String × String))
    (confidence : ℚ) (now : Nat) {α : Type} (bus : MessageBus α) :
    (create_message agent receiver mt content payload confidence now).confidence
        = confidence ∧
    (bus.publish (create_message agent receiver mt content payload confidence now)
        ).1.message_history
      = bus.message_history
        ++ [create_message agent receiver mt content payload confidence now] :=
  ⟨rfl, rfl⟩

/-- Modelled from the spec: `validateFlow(sequence<Phase>) -> bool`.  No
`validate_flow` operation exists anywhere under src/ — `StateMachine`
(src/backend/src/orchestrator/state_machine.py) declares only
`can_transition`, `get_next_states`, `get_active_agents`,
`register_handler`, `execute_transition` and `determine_next_state` — so
this definition follows the spec's words: true iff every consecutive pair
of the sequence satisfies `canTransition`, with empty and single-element
sequences trivially valid. -/
def StateMachine.validateFlow (sm : StateMachine) : List InterviewState → Bool
  | [] => true
  | [_] => true
  | a :: b :: rest => sm.can_transition a b && StateMachine.validateFlow sm (b :: rest)

/-- `validateFlow` agrees with the consecutive-pairs reading. -/
lemma validateFlow_iff_chain (sm : StateMachine) :
    ∀ s : List InterviewState,
      sm.validateFlow s = true ↔
        List.Chain' (fun a b => sm.can_transition a b = true) s
  | [] => by simp [StateMachine.validateFlow]
  | [a] => by simp [StateMachine.validateFlow]
  | a :: b :: rest => by
      simp only [StateMachine.validateFlow, Bool.and_eq_true, List.chain'_cons,
        validateFlow_iff_chain sm (b :: rest)]

/-- Claim C8: `validateFlow` on a phase sequence is true iff every
consecutive pair of the sequence satisfies `can_transition`, and empty
and single-element sequences are trivially valid. -/
theorem C8_validateFlow_spec (sm : StateMachine) (s : List InterviewState) :
    (sm.validateFlow s = true ↔
      List.Chain' (fun a b => sm.can_transition a b = true) s) ∧
    sm.validateFlow [] = true ∧
    (∀ p : InterviewState, sm.validateFlow [p] = true) :=
  ⟨validateFlow_iff_chain sm s, rfl, fun _ => rfl⟩
